import Mathlib

/-!
Shallow embedding of the virtual-respondent bot (`src/bot.py`).

The per-user session dictionary created by `get_user_state` is modelled as the
record `BotState`; the catalog `PERSONAS` (loaded at startup from
`personas_library.json`) and the default persona prompt
(`DEFAULT_PERSONA["prompt"]`, from `persona.json`) are parameters, since they
are data files, not code.  The LLM backend (`call_llm`) is modelled as a
function `List Msg → Option String`: `some a` is a successful completion with
text `a`, `none` is a raised exception.  Each handler returns a `TurnResult`:
the session state after the handler, the list of texts sent back to the user,
and how many LLM requests the handler issued.
-/

/-- One entry of `personas_library.json`: `{id, title, prompt}`. -/
structure Persona where
  id : String
  title : String
  prompt : String
deriving DecidableEq, Repr

/-- One chat message `{role, content}` as stored in `state["history"]` and
sent to the LLM. -/
structure Msg where
  role : String
  content : String
deriving DecidableEq, Repr

/-- The session dictionary installed by `get_user_state` (bot.py lines 61-71):
keys `persona_id`, `persona_title`, `persona_prompt`, `segment_details`,
`awaiting_segment_details`, `history`.  All six keys are present in every
state the program ever builds (`get_user_state` creates them and `start`
rewrites them); `persona_id`/`persona_title` hold Python `None` or a string,
modelled as `Option String`. -/
structure BotState where
  persona_id : Option String
  persona_title : Option String
  persona_prompt : String
  segment_details : String
  awaiting_segment_details : Bool
  history : List Msg
deriving DecidableEq, Repr

/-- What one handler invocation produces: the state left behind, the texts
replied to the user (in order), and the number of LLM calls issued. -/
structure TurnResult where
  state : BotState
  replies : List String
  llmCalls : Nat
deriving DecidableEq, Repr

/-- `MAX_HISTORY = 8` (bot.py line 58). -/
def MAX_HISTORY : Nat := 8

/-- The dictionary `get_user_state` installs on a user's first contact
(bot.py lines 62-70), parametrised by `DEFAULT_PERSONA["prompt"]`. -/
def initState (default_prompt : String) : BotState :=
  { persona_id := none
    persona_title := none
    persona_prompt := default_prompt
    segment_details := ""
    awaiting_segment_details := false
    history := [] }

/-- The `while len(state["history"]) > MAX_HISTORY: state["history"].pop(0)`
loop of `push_history` (bot.py lines 76-77): pop from the front until the
length is within the cap. -/
def trimFront : List Msg → List Msg
  | [] => []
  | x :: xs => if (x :: xs).length > MAX_HISTORY then trimFront xs else x :: xs

/-- `push_history` (bot.py lines 74-77): append `{role, content}` and evict
from the front while over the cap. -/
def push_history (s : BotState) (role content : String) : BotState :=
  { s with history := trimFront (s.history ++ [Msg.mk role content]) }

/-- `history_to_messages` (bot.py lines 80-86): a system message carrying the
persona prompt — with the audience-clarification suffix when
`segment_details` is truthy, i.e. non-empty — followed by the history. -/
def history_to_messages (s : BotState) : List Msg :=
  let persona_prompt :=
    if s.segment_details ≠ "" then
      s.persona_prompt ++ "\nКонтекст уточнения аудитории: " ++ s.segment_details
    else
      s.persona_prompt
  Msg.mk "system" persona_prompt :: s.history

/-- The whitespace test behind Python `str.strip()`, for the character
ranges that can reach this bot (ASCII whitespace). -/
def pyIsSpace (c : Char) : Bool :=
  c.toNat = 0x20 || c.toNat = 0x09 || c.toNat = 0x0A ||
    c.toNat = 0x0D || c.toNat = 0x0B || c.toNat = 0x0C

/-- Python `str.strip()` on the incoming message text (bot.py line 222):
drop leading and trailing whitespace. -/
def pyStrip (s : String) : String :=
  String.mk (((s.data.dropWhile pyIsSpace).reverse.dropWhile pyIsSpace).reverse)

/-- Python `str.lower()`, codepoint-wise, for the ASCII and Cyrillic letters
that occur in the bot's fixed phrases (`Char.toLower` alone only lowers
ASCII, while Python also lowers Cyrillic). -/
def pyLowerChar (c : Char) : Char :=
  if 0x41 ≤ c.toNat ∧ c.toNat ≤ 0x5A then Char.ofNat (c.toNat + 0x20)
  else if 0x410 ≤ c.toNat ∧ c.toNat ≤ 0x42F then Char.ofNat (c.toNat + 0x20)
  else if c.toNat = 0x401 then Char.ofNat 0x451
  else c

/-- Python `str.lower()` on a whole string. -/
def pyLower (s : String) : String := String.mk (s.data.map pyLowerChar)

/-- Python `str.startswith(pre)`. -/
def pyStartsWith (s pre : String) : Bool := pre.data.isPrefixOf s.data

/-- Python `s.split(":", 1)[1]`: everything after the first colon. -/
def afterFirstColon (s : String) : String :=
  String.mk ((s.data.dropWhile (fun c => c != ':')).tail)

/-- The two restart literals tested on bot.py line 226:
`["начать заново", "🔄 начать заново"]`. -/
def restartPhrases : List String := ["начать заново", "🔄 начать заново"]

/-- The apology answer substituted when `call_llm` raises during a chat turn
(bot.py line 245). -/
def apology_text : String :=
  "Хм, у меня сейчас сложности с ответом. Попробуй ещё раз через минуту."

/-- The acknowledgement sent when a clarification is captured
(bot.py lines 234-236). -/
def detail_ack_text : String :=
  "Отлично, контекст зафиксирован. Можешь начать задавать вопросы пользователю."

/-- `start` (bot.py lines 109-140): rewrite every key of the session state
back to the `get_user_state` defaults and send the greeting plus the action
menu caption. -/
def start (default_prompt : String) (_s : BotState) : TurnResult :=
  { state := initState default_prompt
    replies :=
      ["Привет! Я — «Виртуальный респондент».\n• Выбери персону (или оставь по умолчанию)\n• Напиши любой вопрос — отвечу от первого лица\n• В конце используй /summary для итогов",
       "Выбери действие:"]
    llmCalls := 0 }

/-- `get_persona_question` (bot.py lines 143-164): fixed clarifying question
per known persona id, with a generic fallback. -/
def get_persona_question (persona_id : String) : String :=
  if persona_id = "young_mom_moscow" then
    "Чтобы ответы респондента звучали реалистично и соответствовали задачам исследования, укажи ключевой критерий сегмента, который важен именно для твоего исследования.\n\n✍️ Напиши коротко: какой именно подтип аудитории тебе нужен и чем он важен для теста.\n\nПримеры признаков:\n• возраст ребёнка\n• семейное положение\n• занятость\n• тип жилья\n• интересы\n• уровень дохода семьи"
  else if persona_id = "it_engineer" then
    "Чтобы ответы респондента звучали реалистично и соответствовали задачам исследования, укажи ключевой критерий сегмента, который важен именно для твоего исследования.\n\n✍️ Напиши коротко: какой именно подтип аудитории тебе нужен и чем он важен для теста.\n\nПримеры признаков:\n• специализация\n• уровень (junior, middle, senior)\n• формат работы\n• страна\n• тип компании\n• приоритеты"
  else if persona_id = "smb_owner" then
    "Чтобы ответы респондента звучали реалистично и соответствовали задачам исследования, укажи ключевой критерий сегмента, который важен именно для твоего исследования.\n\n✍️ Напиши коротко: какой именно подтип аудитории тебе нужен и чем он важен для теста.\n\nПримеры признаков:\n• отрасль\n• размер бизнеса и команды\n• стаж предпринимателя\n• регион\n• модель бизнеса"
  else
    "Опиши, пожалуйста, уточнения по сегменту целевой аудитории."

/-- `on_button` (bot.py lines 167-210), as a function of the callback data
string.  For `persona:<id>` data, the id is `query.data.split(":", 1)[1]` —
everything after the first colon.  Unmatched data falls off the end of the
handler with no reply and no state change. -/
def on_button (personas : List Persona) (s : BotState) (data : String) : TurnResult :=
  if data = "pick_persona" then
    { state := s, replies := ["Выбери персону:"], llmCalls := 0 }
  else if pyStartsWith data "persona:" then
    let persona_id := afterFirstColon data
    match personas.find? (fun p => p.id == persona_id) with
    | some persona =>
      { state :=
          { s with
            persona_id := some persona_id
            persona_title := some persona.title
            persona_prompt := persona.prompt
            history := []
            segment_details := ""
            awaiting_segment_details := true }
        replies :=
          ["Персона установлена: *" ++ persona.title ++ "*.\n\n" ++
            get_persona_question persona_id]
        llmCalls := 0 }
    | none =>
      { state := s, replies := ["Не нашёл такую персону. Попробуй ещё раз."], llmCalls := 0 }
  else if data = "begin_chat" then
    { state := s, replies := ["Ок, пиши вопрос. Я отвечу от лица выбранной персоны."], llmCalls := 0 }
  else if data = "summary_hint" then
    { state := s, replies := ["В конце сеанса отправь команду /summary — соберу выводы и инсайты."], llmCalls := 0 }
  else if data = "back_home" then
    { state := s, replies := ["Готово. Можешь начать чат или выбрать персону."], llmCalls := 0 }
  else
    { state := s, replies := [], llmCalls := 0 }

/-- The plain chat turn at the end of `on_text` (bot.py lines 240-248):
append the user line, call the LLM on `history_to_messages`, on exception
substitute the apology, then append the answer as the assistant line and
reply with it. -/
def chatTurn (llm : List Msg → Option String) (s : BotState) (user_text : String) : TurnResult :=
  let s1 := push_history s "user" user_text
  let answer :=
    match llm (history_to_messages s1) with
    | some a => a
    | none => apology_text
  { state := push_history s1 "assistant" answer
    replies := [answer]
    llmCalls := 1 }

/-- `on_text` (bot.py lines 221-248): strip the text; a restart phrase
(case-insensitive) re-runs `start`; else if the session is awaiting the
segment clarification, capture it and acknowledge; else run a chat turn. -/
def on_text (llm : List Msg → Option String) (default_prompt : String)
    (s : BotState) (text : String) : TurnResult :=
  let user_text := pyStrip text
  if pyLower user_text ∈ restartPhrases then
    start default_prompt s
  else if s.awaiting_segment_details then
    { state := { s with awaiting_segment_details := false, segment_details := user_text }
      replies := [detail_ack_text]
      llmCalls := 0 }
  else
    chatTurn llm s user_text

/-- `state.get("persona_title", "Без персоны")` followed by f-string
interpolation (bot.py line 257): every session dictionary the program builds
carries the key `persona_title` (installed by `get_user_state`, value `None`
until a persona is chosen), so `.get` returns the stored value, never the
`"Без персоны"` default; Python renders `None` inside an f-string as the
four letters `None`. -/
def persona_title_display (s : BotState) : String :=
  match s.persona_title with
  | none => "None"
  | some t => t

/-- The fixed instruction message appended for the summary request
(bot.py lines 266-268). -/
def summary_instruction : String :=
  "Сделай краткий отчёт по нашей беседе: 3–5 пунктов инсайтов, что понравилось/не понравилось, ожидания/триггеры, и 3 тестовых next steps для продукта. Формат — маркированный список."

/-- The messages the summary handler sends to the LLM (bot.py lines
263-269): system prompt, full history, then the instruction as a final
user-role message. -/
def summary_messages (s : BotState) : List Msg :=
  Msg.mk "system" s.persona_prompt :: (s.history ++ [Msg.mk "user" summary_instruction])

/-- The report text of the summary handler (bot.py lines 270-274): the LLM
answer, or the fixed failure text when `call_llm` raises. -/
def summary_report (llm : List Msg → Option String) (s : BotState) : String :=
  match llm (summary_messages s) with
  | some r => r
  | none => "Не удалось собрать сводку. Попробуй ещё раз позже."

/-- `summary` (bot.py lines 251-277): empty history short-circuits with a
fixed message and no LLM call; otherwise build the header from the persona
title and optional segment detail, send system prompt + history + the
instruction to the LLM (`max_tokens=350`), fall back to a fixed failure text
on exception, and reply without touching the state. -/
def summary (llm : List Msg → Option String) (s : BotState) : TurnResult :=
  if s.history = [] then
    { state := s, replies := ["Пока нечего суммировать — напиши пару вопросов."], llmCalls := 0 }
  else
    let persona_title := persona_title_display s
    let segment_details := s.segment_details
    let summary_intro0 := "Отчёт по персоне: *" ++ persona_title ++ "*"
    let summary_intro :=
      if segment_details ≠ "" then
        summary_intro0 ++ "\nУточнение сегмента: " ++ segment_details
      else
        summary_intro0
    let report := summary_report llm s
    { state := s
      replies := [summary_intro ++ "\n\n📄 Итоги:\n" ++ report]
      llmCalls := 1 }

/-- One transport event aimed at a single user's session.  The `Option
String` carried by text and summary events is the outcome of the LLM call
the handler would issue (`none` = the backend raised), so quantifying over
event lists quantifies over every backend behaviour. -/
inductive BotEvent where
  | startEv : BotEvent
  | buttonEv : String → BotEvent
  | textEv : String → Option String → BotEvent
  | summaryEv : Option String → BotEvent
deriving DecidableEq, Repr

/-- The state left by dispatching one event, as `main` wires the handlers. -/
def stepState (personas : List Persona) (default_prompt : String)
    (s : BotState) : BotEvent → BotState
  | BotEvent.startEv => (start default_prompt s).state
  | BotEvent.buttonEv d => (on_button personas s d).state
  | BotEvent.textEv t r => (on_text (fun _ => r) default_prompt s t).state
  | BotEvent.summaryEv r => (summary (fun _ => r) s).state

/-- The session state after a user's whole event sequence, starting from the
state `get_user_state` creates on first contact. -/
def runEvents (personas : List Persona) (default_prompt : String)
    (evs : List BotEvent) : BotState :=
  evs.foldl (stepState personas default_prompt) (initState default_prompt)

/-! ### Basic lemmas about the history cap -/

/-- The eviction loop equals dropping the overflow from the front. -/
theorem trimFront_eq_drop (l : List Msg) : trimFront l = l.drop (l.length - MAX_HISTORY) := by
  induction l with
  | nil => rfl
  | cons x xs ih =>
      simp only [trimFront]
      by_cases h : (x :: xs).length > MAX_HISTORY
      · rw [if_pos h, ih]
        simp only [List.length_cons]
        have h8 : xs.length + 1 - MAX_HISTORY = (xs.length - MAX_HISTORY) + 1 := by
          simp only [List.length_cons] at h
          omega
        rw [h8, List.drop_succ_cons]
      · rw [if_neg h]
        have h0 : (x :: xs).length - MAX_HISTORY = 0 := by omega
        rw [h0, List.drop_zero]

/-- After the eviction loop the history is always within the cap. -/
theorem trimFront_length_le (l : List Msg) : (trimFront l).length ≤ MAX_HISTORY := by
  rw [trimFront_eq_drop, List.length_drop]
  omega

/-- Trimming a freshly appended list drops only from the front and keeps the
new entry at the back. -/
theorem trimFront_concat (l : List Msg) (m : Msg) :
    trimFront (l ++ [m]) = l.drop (l.length + 1 - MAX_HISTORY) ++ [m] := by
  rw [trimFront_eq_drop]
  have hM : MAX_HISTORY = 8 := rfl
  have hk : (l ++ [m]).length - MAX_HISTORY ≤ l.length := by
    rw [List.length_append, List.length_singleton]
    omega
  rw [List.drop_append_of_le_length hk, List.length_append, List.length_singleton]

/-- What `push_history` does to the history list: append, then drop the
overflow from the front. -/
theorem push_history_history (s : BotState) (r c : String) :
    (push_history s r c).history =
      (s.history ++ [Msg.mk r c]).drop ((s.history ++ [Msg.mk r c]).length - MAX_HISTORY) := by
  simp [push_history, trimFront_eq_drop]

/-- The entry just pushed is never evicted: it stays at the back. -/
theorem push_history_getLast (s : BotState) (r c : String) :
    (push_history s r c).history.getLast? = some (Msg.mk r c) := by
  simp only [push_history, trimFront_concat]
  exact List.getLast?_concat _

/-- `push_history` keeps the history within the cap unconditionally. -/
theorem push_history_length_le (s : BotState) (r c : String) :
    (push_history s r c).history.length ≤ MAX_HISTORY := by
  simp only [push_history]
  exact trimFront_length_le _

/-- The last entry of a list within the cap survives one further push. -/
theorem mem_trimFront_concat_of_concat (Y : List Msg) (u a : Msg)
    (hlen : (Y ++ [u]).length ≤ MAX_HISTORY) :
    u ∈ trimFront ((Y ++ [u]) ++ [a]) := by
  rw [trimFront_concat]
  have hM : MAX_HISTORY = 8 := rfl
  have hk : (Y ++ [u]).length + 1 - MAX_HISTORY ≤ Y.length := by
    rw [List.length_append, List.length_singleton] at hlen ⊢
    omega
  rw [List.drop_append_of_le_length hk]
  simp

/-- In a chat turn, the stripped user text always ends up in the stored
history (it survives both the user-append and the assistant-append). -/
theorem chatTurn_user_mem (llm : List Msg → Option String) (s : BotState) (u : String) :
    Msg.mk "user" u ∈ (chatTurn llm s u).state.history := by
  have hM : MAX_HISTORY = 8 := rfl
  simp only [chatTurn, push_history]
  rw [trimFront_concat s.history (Msg.mk "user" u)]
  apply mem_trimFront_concat_of_concat
  rw [List.length_append, List.length_singleton, List.length_drop]
  omega

/-! ### Invariant machinery over event sequences -/

/-- A property preserved by every event step holds after any event list. -/
theorem foldl_preserves {personas : List Persona} {dp : String} {P : BotState → Prop}
    (hstep : ∀ s e, P s → P (stepState personas dp s e)) :
    ∀ (evs : List BotEvent) (s0 : BotState), P s0 →
      P (evs.foldl (stepState personas dp) s0) := by
  intro evs
  induction evs with
  | nil => intro s0 h; exact h
  | cons e evs ih => intro s0 h; exact ih _ (hstep _ _ h)

/-- Every event step keeps the history within the cap. -/
theorem stepState_history_le (personas : List Persona) (dp : String)
    (s : BotState) (e : BotEvent) (h : s.history.length ≤ MAX_HISTORY) :
    (stepState personas dp s e).history.length ≤ MAX_HISTORY := by
  cases e with
  | startEv => simp [stepState, start, initState]
  | buttonEv d =>
      simp only [stepState, on_button]
      repeat' split
      all_goals simp_all
  | textEv t r =>
      simp only [stepState, on_text]
      split
      · simp [start, initState]
      · split
        · simpa using h
        · simp only [chatTurn]
          exact push_history_length_le _ _ _
  | summaryEv r =>
      simp only [stepState, summary]
      split
      · simpa using h
      · simpa using h

/-- Every event step preserves the clarification-window invariant. -/
theorem stepState_awaiting_inv (personas : List Persona) (dp : String)
    (s : BotState) (e : BotEvent)
    (h : s.awaiting_segment_details = true → s.persona_id ≠ none) :
    (stepState personas dp s e).awaiting_segment_details = true →
      (stepState personas dp s e).persona_id ≠ none := by
  cases e with
  | startEv => simp [stepState, start, initState]
  | buttonEv d =>
      simp only [stepState, on_button]
      repeat' split
      all_goals simp_all
  | textEv t r =>
      simp only [stepState, on_text]
      split
      · simp [start, initState]
      · split
        · simp
        · simp only [chatTurn, push_history]
          simpa using h
  | summaryEv r =>
      simp only [stepState, summary]
      split
      · simpa using h
      · simpa using h

/-- Shape of the summary reply on a non-empty history. -/
theorem summary_replies_shape (llm : List Msg → Option String) (s : BotState)
    (hH : s.history ≠ []) :
    (summary llm s).replies =
      [(if s.segment_details ≠ "" then
          ("Отчёт по персоне: *" ++ persona_title_display s ++ "*") ++
            "\nУточнение сегмента: " ++ s.segment_details
        else
          ("Отчёт по персоне: *" ++ persona_title_display s ++ "*")) ++
        "\n\n📄 Итоги:\n" ++ summary_report llm s] := by
  unfold summary
  rw [if_neg hH]

/-! ### Claim theorems -/

/-- C2: over every event sequence the session history holds at most
`MAX_HISTORY = 8` entries, and each `push_history` evicts only from the
front: the stored history is the appended list minus its oldest overflow,
the just-appended entry always remains at the back, and the result is back
under the cap immediately. -/
theorem C2_history_capped_fifo (personas : List Persona) (dp : String)
    (evs : List BotEvent) :
    (runEvents personas dp evs).history.length ≤ MAX_HISTORY ∧
    ∀ (s : BotState) (r c : String),
      (push_history s r c).history =
        (s.history ++ [Msg.mk r c]).drop
          ((s.history ++ [Msg.mk r c]).length - MAX_HISTORY) ∧
      (push_history s r c).history.getLast? = some (Msg.mk r c) ∧
      (push_history s r c).history.length ≤ MAX_HISTORY := by
  refine ⟨?_, fun s r c =>
    ⟨push_history_history s r c, push_history_getLast s r c, push_history_length_le s r c⟩⟩
  exact foldl_preserves (stepState_history_le personas dp) evs (initState dp)
    (by simp [initState])

/-- C5: `history_to_messages` returns one leading system entry whose content
is the persona prompt, with the exact clarification suffix appended iff the
segment detail is non-empty, followed by the stored history, oldest first. -/
theorem C5_build_messages (s : BotState) :
    (history_to_messages s).head? =
      some (Msg.mk "system"
        (if s.segment_details = "" then s.persona_prompt
         else s.persona_prompt ++ "\nКонтекст уточнения аудитории: " ++ s.segment_details)) ∧
    (history_to_messages s).tail = s.history := by
  constructor
  · by_cases hs : s.segment_details = "" <;> simp [history_to_messages, hs]
  · rfl

/-- C6: in every reachable session state the clarification window is open
only with a non-null active persona id: the window opens only on an explicit
persona choice. -/
theorem C6_awaiting_implies_persona (personas : List Persona) (dp : String)
    (evs : List BotEvent)
    (h : (runEvents personas dp evs).awaiting_segment_details = true) :
    (runEvents personas dp evs).persona_id ≠ none :=
  foldl_preserves (stepState_awaiting_inv personas dp) evs (initState dp)
    (by simp [initState]) h

/-- Witness for C6: after selecting the catalog persona `x`, the window is
open and the persona id is indeed non-null. -/
theorem C6_awaiting_implies_persona_witness :
    (runEvents [Persona.mk "x" "T" "P"] "d"
      [BotEvent.buttonEv "persona:x"]).awaiting_segment_details = true ∧
    (runEvents [Persona.mk "x" "T" "P"] "d"
      [BotEvent.buttonEv "persona:x"]).persona_id ≠ none :=
  ⟨by decide, C6_awaiting_implies_persona [Persona.mk "x" "T" "P"] "d"
    [BotEvent.buttonEv "persona:x"] (by decide)⟩

/-- C3: a persona-chosen event for any persona `q` present in the catalog —
whatever the prior session state, e.g. right after choosing some other
persona — installs `q.prompt` as the system prompt, empties the history and
segment detail, and opens the clarification window. -/
theorem C3_persona_selection (personas : List Persona) (s : BotState)
    (data : String) (q : Persona)
    (hd : pyStartsWith data "persona:" = true)
    (hq : personas.find? (fun p => p.id == afterFirstColon data) = some q) :
    (on_button personas s data).state =
      { persona_id := some (afterFirstColon data)
        persona_title := some q.title
        persona_prompt := q.prompt
        segment_details := ""
        awaiting_segment_details := true
        history := [] } := by
  have hne : data ≠ "pick_persona" := by
    intro he
    subst he
    exact absurd hd (by decide)
  unfold on_button
  rw [if_neg hne, if_pos hd]
  simp [hq]

/-- Witness for C3: selecting `young_mom_moscow` and then immediately
`it_engineer` leaves the `it_engineer` prompt, empty history, empty segment
detail and an open clarification window. -/
theorem C3_persona_selection_witness :
    ([Persona.mk "young_mom_moscow" "Мама" "PP",
      Persona.mk "it_engineer" "Инженер" "QQ"].find?
        (fun p => p.id == afterFirstColon "persona:it_engineer") =
      some (Persona.mk "it_engineer" "Инженер" "QQ")) ∧
    (on_button
        [Persona.mk "young_mom_moscow" "Мама" "PP",
         Persona.mk "it_engineer" "Инженер" "QQ"]
        (on_button
          [Persona.mk "young_mom_moscow" "Мама" "PP",
           Persona.mk "it_engineer" "Инженер" "QQ"]
          (initState "d") "persona:young_mom_moscow").state
        "persona:it_engineer").state =
      { persona_id := some (afterFirstColon "persona:it_engineer")
        persona_title := some "Инженер"
        persona_prompt := "QQ"
        segment_details := ""
        awaiting_segment_details := true
        history := [] } :=
  ⟨by decide,
    C3_persona_selection
      [Persona.mk "young_mom_moscow" "Мама" "PP",
       Persona.mk "it_engineer" "Инженер" "QQ"]
      (on_button
        [Persona.mk "young_mom_moscow" "Мама" "PP",
         Persona.mk "it_engineer" "Инженер" "QQ"]
        (initState "d") "persona:young_mom_moscow").state
      "persona:it_engineer"
      (Persona.mk "it_engineer" "Инженер" "QQ")
      (by decide) (by decide)⟩

/-- C8: a persona-chosen event whose id matches no catalog entry emits the
fixed error text and leaves every field of the session state unchanged. -/
theorem C8_unknown_persona (personas : List Persona) (s : BotState)
    (data : String)
    (hd : pyStartsWith data "persona:" = true)
    (habs : ∀ p ∈ personas, p.id ≠ afterFirstColon data) :
    on_button personas s data =
      { state := s
        replies := ["Не нашёл такую персону. Попробуй ещё раз."]
        llmCalls := 0 } := by
  have hne : data ≠ "pick_persona" := by
    intro he
    subst he
    exact absurd hd (by decide)
  have hfind : personas.find? (fun p => p.id == afterFirstColon data) = none := by
    rw [List.find?_eq_none]
    intro p hp
    simpa using habs p hp
  unfold on_button
  rw [if_neg hne, if_pos hd]
  simp [hfind]

/-- Witness for C8: selecting the unknown id `ghost` changes nothing and
reports the error. -/
theorem C8_unknown_persona_witness :
    (∀ p ∈ [Persona.mk "young_mom_moscow" "Мама" "PP"],
      p.id ≠ afterFirstColon "persona:ghost") ∧
    on_button [Persona.mk "young_mom_moscow" "Мама" "PP"] (initState "d")
        "persona:ghost" =
      { state := initState "d"
        replies := ["Не нашёл такую персону. Попробуй ещё раз."]
        llmCalls := 0 } :=
  ⟨by decide,
    C8_unknown_persona [Persona.mk "young_mom_moscow" "Мама" "PP"]
      (initState "d") "persona:ghost" (by decide) (by decide)⟩

/-- C7: the reset event rebuilds the `get_user_state` defaults — default
persona prompt, empty history, empty segment detail, closed clarification
window — regardless of prior state; and a free-text message whose stripped
text matches a restart literal case-insensitively is, in any state, handled
by the very same `start` handler. -/
theorem C7_reset_and_restart (llm : List Msg → Option String) (dp : String)
    (s : BotState) (t : String)
    (h : pyLower (pyStrip t) ∈ restartPhrases) :
    on_text llm dp s t = start dp s ∧
    (start dp s).state = initState dp ∧
    (initState dp).persona_prompt = dp ∧
    (initState dp).history = [] ∧
    (initState dp).segment_details = "" ∧
    (initState dp).awaiting_segment_details = false := by
  refine ⟨?_, rfl, rfl, rfl, rfl, rfl⟩
  simp only [on_text]
  rw [if_pos h]

/-- Witness for C7: a mixed-case, padded restart phrase sent in a dirty
state is handled by `start`. -/
theorem C7_reset_and_restart_witness :
    (pyLower (pyStrip "  НАЧАТЬ Заново ") ∈ restartPhrases) ∧
    (on_text (fun _ => some "ответ") "базовый промпт"
        (BotState.mk (some "z") (some "Z") "zzz" "sss" true [Msg.mk "user" "q"])
        "  НАЧАТЬ Заново " =
      start "базовый промпт"
        (BotState.mk (some "z") (some "Z") "zzz" "sss" true [Msg.mk "user" "q"]) ∧
    (start "базовый промпт"
        (BotState.mk (some "z") (some "Z") "zzz" "sss" true [Msg.mk "user" "q"])).state =
      initState "базовый промпт" ∧
    (initState "базовый промпт").persona_prompt = "базовый промпт" ∧
    (initState "базовый промпт").history = [] ∧
    (initState "базовый промпт").segment_details = "" ∧
    (initState "базовый промпт").awaiting_segment_details = false) :=
  ⟨by decide,
    C7_reset_and_restart (fun _ => some "ответ") "базовый промпт"
      (BotState.mk (some "z") (some "Z") "zzz" "sss" true [Msg.mk "user" "q"])
      "  НАЧАТЬ Заново " (by decide)⟩

/-- C9: a summary request while the history is empty replies with the fixed
"nothing to summarize" text, issues no LLM call and leaves the session state
untouched. -/
theorem C9_summary_empty_history (llm : List Msg → Option String)
    (s : BotState) (h : s.history = []) :
    summary llm s =
      { state := s
        replies := ["Пока нечего суммировать — напиши пару вопросов."]
        llmCalls := 0 } := by
  unfold summary
  rw [if_pos h]

/-- Witness for C9 on a fresh session. -/
theorem C9_summary_empty_history_witness :
    (initState "d").history = [] ∧
    summary (fun _ => some "отчёт") (initState "d") =
      { state := initState "d"
        replies := ["Пока нечего суммировать — напиши пару вопросов."]
        llmCalls := 0 } :=
  ⟨rfl, C9_summary_empty_history (fun _ => some "отчёт") (initState "d") rfl⟩

/-- C10: on a session where no persona was ever selected (`persona_title`
still `None`), a summary request with non-empty history renders the header
with the literal `*None*`: `state.get("persona_title", "Без персоны")`
always finds the `persona_title` key — `get_user_state` installs it in every
session — so the `"Без персоны"` fallback never fires and Python prints the
stored `None`. -/
theorem C10_summary_none_header (llm : List Msg → Option String) (s : BotState)
    (hT : s.persona_title = none) (hH : s.history ≠ []) :
    ∃ rest : String,
      (summary llm s).replies = ["Отчёт по персоне: *None*" ++ rest] := by
  have hPT : persona_title_display s = "None" := by
    simp [persona_title_display, hT]
  rw [summary_replies_shape llm s hH, hPT]
  by_cases hseg : s.segment_details ≠ ""
  · rw [if_pos hseg]
    refine ⟨"\nУточнение сегмента: " ++
      (s.segment_details ++ ("\n\n📄 Итоги:\n" ++ summary_report llm s)), ?_⟩
    simp only [String.append_assoc]
    rfl
  · rw [if_neg hseg]
    refine ⟨"\n\n📄 Итоги:\n" ++ summary_report llm s, ?_⟩
    simp only [String.append_assoc]
    rfl

/-- Witness for C10: one user line in history, no persona ever chosen,
successful LLM call — the reply header is `Отчёт по персоне: *None*`. -/
theorem C10_summary_none_header_witness :
    (BotState.mk none none "d" "" false [Msg.mk "user" "q"]).persona_title = none ∧
    (BotState.mk none none "d" "" false [Msg.mk "user" "q"]).history ≠ [] ∧
    ∃ rest : String,
      (summary (fun _ => some "R")
        (BotState.mk none none "d" "" false [Msg.mk "user" "q"])).replies =
        ["Отчёт по персоне: *None*" ++ rest] :=
  ⟨rfl, by decide,
    C10_summary_none_header (fun _ => some "R")
      (BotState.mk none none "d" "" false [Msg.mk "user" "q"]) rfl (by decide)⟩

/-- C1 fails on the code: when the LLM call of a chat turn raises, the
apology is still pushed as an assistant history entry (the
`push_history(state, "assistant", answer)` on bot.py line 246 sits outside
the `try`), so the history does not stay at just the user message. -/
theorem C1_counterexample :
    (on_text (fun _ => none) "d" (initState "d") "Привет").state.history =
      [Msg.mk "user" "Привет", Msg.mk "assistant" apology_text] ∧
    ((on_text (fun _ => none) "d" (initState "d") "Привет").state.history.all
      (fun m => m.role != "assistant")) = false ∧
    (on_text (fun _ => none) "d" (initState "d") "Привет").replies = [apology_text] :=
  ⟨by decide, by decide, by decide⟩

/-- C1 (amended): in a FRESH/ACTIVE session (clarification window closed), a
non-restart chat turn whose LLM call fails appends the user message and then
also appends the apology as an assistant entry; the emitted reply is the
fixed apology string. -/
theorem C1_failed_turn_appends_apology (dp : String) (s : BotState) (t : String)
    (hA : s.awaiting_segment_details = false)
    (hR : pyLower (pyStrip t) ∉ restartPhrases) :
    on_text (fun _ => none) dp s t =
      { state := push_history (push_history s "user" (pyStrip t)) "assistant" apology_text
        replies := [apology_text]
        llmCalls := 1 } := by
  simp only [on_text]
  rw [if_neg hR, if_neg (by simp [hA])]
  rfl

/-- Witness for the amended C1 on a fresh session. -/
theorem C1_failed_turn_appends_apology_witness :
    (initState "d").awaiting_segment_details = false ∧
    pyLower (pyStrip "Вопрос") ∉ restartPhrases ∧
    on_text (fun _ => none) "d" (initState "d") "Вопрос" =
      { state := push_history (push_history (initState "d") "user" (pyStrip "Вопрос"))
          "assistant" apology_text
        replies := [apology_text]
        llmCalls := 1 } :=
  ⟨rfl, by decide,
    C1_failed_turn_appends_apology "d" (initState "d") "Вопрос" rfl (by decide)⟩

/-- C4 fails on the code: with the clarification window open, the free-text
message «Начать заново» is not stored verbatim as the segment detail — the
restart check on bot.py line 226 runs before the clarification branch, so
the session resets instead. -/
theorem C4_counterexample :
    (on_button [Persona.mk "x" "T" "P"] (initState "d")
      "persona:x").state.awaiting_segment_details = true ∧
    (on_text (fun _ => some "ответ") "d"
        (on_button [Persona.mk "x" "T" "P"] (initState "d") "persona:x").state
        "Начать заново").state.segment_details ≠ "Начать заново" :=
  ⟨by decide, by decide⟩

/-- C4 (amended): with the clarification window open, a free-text message
whose stripped text is not a restart phrase stores the stripped text (the
payload itself whenever it has no surrounding whitespace) as the segment
detail, closes the window, appends nothing to history and issues no LLM
call; the next such non-restart free-text message is handled as a normal
chat turn and its user text does enter the history. -/
theorem C4_detail_capture_then_chat (llm llm2 : List Msg → Option String)
    (dp : String) (s : BotState) (t u : String)
    (hA : s.awaiting_segment_details = true)
    (ht : pyLower (pyStrip t) ∉ restartPhrases)
    (hu : pyLower (pyStrip u) ∉ restartPhrases) :
    (on_text llm dp s t).state.segment_details = pyStrip t ∧
    (on_text llm dp s t).state.awaiting_segment_details = false ∧
    (on_text llm dp s t).state.history = s.history ∧
    (on_text llm dp s t).llmCalls = 0 ∧
    on_text llm2 dp (on_text llm dp s t).state u =
      chatTurn llm2 (on_text llm dp s t).state (pyStrip u) ∧
    Msg.mk "user" (pyStrip u) ∈
      (on_text llm2 dp (on_text llm dp s t).state u).state.history := by
  have h1 : on_text llm dp s t =
      { state := { s with awaiting_segment_details := false, segment_details := pyStrip t }
        replies := [detail_ack_text]
        llmCalls := 0 } := by
    simp only [on_text]
    rw [if_neg ht, if_pos hA]
  have h2 : on_text llm2 dp (on_text llm dp s t).state u =
      chatTurn llm2 (on_text llm dp s t).state (pyStrip u) := by
    rw [h1]
    simp only [on_text]
    rw [if_neg hu, if_neg (by simp)]
  refine ⟨?_, ?_, ?_, ?_, h2, ?_⟩
  · rw [h1]
  · rw [h1]
  · rw [h1]
  · rw [h1]
  · rw [h2]
    exact chatTurn_user_mem llm2 _ (pyStrip u)

/-- Witness for the amended C4: capture «мамы» as the segment detail right
after persona selection, then the chat turn «тест» reaches the history. -/
theorem C4_detail_capture_then_chat_witness :
    (on_button [Persona.mk "x" "T" "P"] (initState "d")
      "persona:x").state.awaiting_segment_details = true ∧
    pyLower (pyStrip "мамы") ∉ restartPhrases ∧
    pyLower (pyStrip "тест") ∉ restartPhrases ∧
    ((on_text (fun _ => some "a") "d"
        (on_button [Persona.mk "x" "T" "P"] (initState "d") "persona:x").state
        "мамы").state.segment_details = pyStrip "мамы" ∧
     (on_text (fun _ => some "a") "d"
        (on_button [Persona.mk "x" "T" "P"] (initState "d") "persona:x").state
        "мамы").state.awaiting_segment_details = false ∧
     (on_text (fun _ => some "a") "d"
        (on_button [Persona.mk "x" "T" "P"] (initState "d") "persona:x").state
        "мамы").state.history =
       (on_button [Persona.mk "x" "T" "P"] (initState "d") "persona:x").state.history ∧
     (on_text (fun _ => some "a") "d"
        (on_button [Persona.mk "x" "T" "P"] (initState "d") "persona:x").state
        "мамы").llmCalls = 0 ∧
     on_text (fun _ => some "b") "d"
        (on_text (fun _ => some "a") "d"
          (on_button [Persona.mk "x" "T" "P"] (initState "d") "persona:x").state
          "мамы").state "тест" =
       chatTurn (fun _ => some "b")
         (on_text (fun _ => some "a") "d"
           (on_button [Persona.mk "x" "T" "P"] (initState "d") "persona:x").state
           "мамы").state (pyStrip "тест") ∧
     Msg.mk "user" (pyStrip "тест") ∈
       (on_text (fun _ => some "b") "d"
         (on_text (fun _ => some "a") "d"
           (on_button [Persona.mk "x" "T" "P"] (initState "d") "persona:x").state
           "мамы").state "тест").state.history) :=
  ⟨by decide, by decide, by decide,
    C4_detail_capture_then_chat (fun _ => some "a") (fun _ => some "b") "d"
      (on_button [Persona.mk "x" "T" "P"] (initState "d") "persona:x").state
      "мамы" "тест" (by decide) (by decide) (by decide)⟩
